import Mathlib

/-!
Verification of the zenon-node-monitor core (src/monitor.py, src/config.py).

The embedding below translates the per-node data model (`Momentum`,
`NodeState`), the fixed three-node registry of `ForkMonitor.__init__`, the
momentum-buffer update (`update_momentums`), disconnection handling
(`handle_disconnection`), the health check (`check_connection_health`), the
per-message step of the ingestion loop (`monitor_node`'s receive/parse body
with its exception handlers), and the fork-detection scan (`check_for_fork`).

Time stamps (`time.time()`) are modelled as integers passed explicitly as a
`now` parameter; websocket handles are modelled by their only observed field,
`closed`; inbound messages are modelled by the shape classes the code
distinguishes (unparseable, missing the `params.result` keys, or a
`params.result` list whose head may or may not carry `height`/`hash`).
-/

/-- The three configured node identifiers: the keys of `ForkMonitor.nodes`
(`hc1`, `zenonhub`, `atsocy`), in dict insertion order. -/
inductive NodeName
  | hc1
  | zenonhub
  | atsocy
  deriving DecidableEq

/-- `Momentum` dataclass: `height: int`, `hash: str`, `timestamp: float`,
`is_stale: bool = False`. -/
structure Momentum where
  height : Int
  hash : String
  timestamp : Int
  is_stale : Bool := false
  deriving DecidableEq

/-- The websocket handle, modelled by the only field the monitor reads on it
(`websocket.closed`); `close()` sets it. -/
structure WebsocketHandle where
  closed : Bool
  deriving DecidableEq

/-- `NodeState` dataclass with its dataclass defaults. -/
structure NodeState where
  websocket : Option WebsocketHandle := none
  subscription_id : Option String := none
  last_height : Option Int := none
  last_hash : Option String := none
  is_connected : Bool := false
  last_message_time : Int := 0
  momentums : List Momentum := []
  deriving DecidableEq

/-- `ForkMonitor.nodes`: the registry mapping the three configured node names
to their `NodeState`. -/
structure Registry where
  hc1 : NodeState
  zenonhub : NodeState
  atsocy : NodeState
  deriving DecidableEq

/-- `self.nodes.items()`: the registry entries in dict insertion order. -/
def Registry.nodesList (r : Registry) : List (NodeName × NodeState) :=
  [(NodeName.hc1, r.hc1), (NodeName.zenonhub, r.zenonhub), (NodeName.atsocy, r.atsocy)]

/-- `Config.MESSAGE_TIMEOUT` (src/config.py). -/
def MESSAGE_TIMEOUT : Int := 30

/-- `ForkMonitor.update_momentums`: append a fresh momentum, then keep only the
last 5 (`node.momentums[-5:]`) if the length exceeds 5. -/
def update_momentums (momentums : List Momentum) (height : Int) (hash : String)
    (now : Int) : List Momentum :=
  let ms := momentums ++ [{ height := height, hash := hash, timestamp := now }]
  if ms.length > 5 then ms.drop (ms.length - 5) else ms

/-- `ForkMonitor.handle_disconnection`: clear `is_connected`, `subscription_id`
and the websocket field, close the handle if it is still open, and mark every
held momentum stale. The second component is the final state of the handle the
node was holding (the Python object outlives the cleared field). -/
def handle_disconnection (node : NodeState) : NodeState × Option WebsocketHandle :=
  let ws : Option WebsocketHandle :=
    match node.websocket with
    | some w => some (if w.closed then w else { w with closed := true })
    | none => none
  ({ node with
      is_connected := false
      subscription_id := none
      websocket := none
      momentums := node.momentums.map fun m => { m with is_stale := true } },
    ws)

/-- `ForkMonitor.check_connection_health`: a no-op on a disconnected node;
otherwise run `handle_disconnection` when `now - last_message_time` exceeds
`MESSAGE_TIMEOUT`. -/
def check_connection_health (now : Int) (node : NodeState) : NodeState :=
  if !node.is_connected then node
  else if now - node.last_message_time > MESSAGE_TIMEOUT then
    (handle_disconnection node).1
  else node

/-- The first element of a `params.result` push list, as the ingestion loop
reads it: either both `height` and `hash` keys are present, or `height` is
missing (so `momentum['height']` raises), or only `hash` is missing (so
`last_height` is assigned before `momentum['hash']` raises). -/
inductive PushItem
  | wellFormed (height : Int) (hash : String)
  | missingHeight
  | missingHash (height : Int)
  deriving DecidableEq

/-- An inbound message, classified by the shapes `monitor_node` distinguishes:
`json.loads` fails; the parse succeeds but `'params' in data and 'result' in
data['params']` is false; or a `params.result` list is present. -/
inductive Msg
  | invalidJson
  | noPush
  | push (result : List PushItem)
  deriving DecidableEq

/-- How one pass of the ingestion-loop body ended: the momentum was processed,
the message was logged and discarded, or an exception escaped to the outer
`except` handlers. -/
inductive StepOutcome
  | processed
  | discarded
  | errored
  deriving DecidableEq

/-- The body of `monitor_node`'s inner `try` after a message is received:
stamp `last_message_time`, parse, and either process the push payload, discard
an unexpected format, or raise (unparseable JSON, empty `params.result`, or a
head item missing `height`/`hash`). -/
def receive_step (node : NodeState) (msg : Msg) (now : Int) : NodeState × StepOutcome :=
  let node := { node with last_message_time := now }
  match msg with
  | .invalidJson => (node, .errored)
  | .noPush => (node, .discarded)
  | .push [] => (node, .errored)
  | .push (.missingHeight :: _) => (node, .errored)
  | .push (.missingHash h :: _) => ({ node with last_height := some h }, .errored)
  | .push (.wellFormed h s :: _) =>
      ({ node with
          last_height := some h
          last_hash := some s
          momentums := update_momentums node.momentums h s now }, .processed)

/-- `monitor_node`'s `except websockets.exceptions.ConnectionClosed` and
`except Exception` handlers (shutdown not signalled): set `is_connected` to
`False`, then sleep the fixed backoff. No other field is touched. -/
def on_transport_error (node : NodeState) : NodeState :=
  { node with is_connected := false }

/-- One full pass of the ingestion-loop body for one received message,
including the outer exception handlers. -/
def monitor_iteration (node : NodeState) (msg : Msg) (now : Int) : NodeState :=
  let r := receive_step node msg now
  match r.2 with
  | .errored => on_transport_error r.1
  | _ => r.1

/-- `connect_node`'s failure path while awaiting the subscription ack (missing
`result`, timeout, or exception): set `is_connected = False`, then run
`handle_disconnection`. -/
def subscription_failure_step (node : NodeState) : NodeState × Option WebsocketHandle :=
  handle_disconnection { node with is_connected := false }

/-- The decision `check_for_fork` reaches, read off its branch structure: the
three early `return`s, the consensus log, and the fork log (which reports every
node's `last_height` and `last_hash`). -/
inductive ForkDecision
  | incompleteDisconnected
  | incompleteNoData
  | incompleteHeightMismatch
  | consensus (height : Option Int) (hash : Option String)
  | fork (report : List (NodeName × Option Int × Option String))
  deriving DecidableEq

/-- `ForkMonitor.check_for_fork`, in state-passing form: the registry it was
handed is returned alongside the decision (the method only reads node fields,
and the returned registry makes that a theorem rather than a convention). -/
def check_for_fork (r : Registry) : Registry × ForkDecision :=
  if !(r.nodesList.all fun p => p.2.is_connected) then
    (r, ForkDecision.incompleteDisconnected)
  else if r.nodesList.any fun p => p.2.last_height.isNone || p.2.last_hash.isNone then
    (r, ForkDecision.incompleteNoData)
  else
    let heights := r.nodesList.map fun p => (p.1, p.2.last_height)
    if 1 < (heights.map Prod.snd).dedup.length then
      (r, ForkDecision.incompleteHeightMismatch)
    else
      let referenceHash := r.hc1.last_hash
      if r.nodesList.all fun p => p.2.last_hash == referenceHash then
        (r, ForkDecision.consensus r.hc1.last_height referenceHash)
      else
        (r, ForkDecision.fork
          (r.nodesList.map fun p => (p.1, p.2.last_height, p.2.last_hash)))

/-- A sample momentum used by concrete witnesses. -/
def sampleMomentum : Momentum := { height := 100, hash := "H1", timestamp := 7 }

/-- A sample healthy connected node used by concrete witnesses. -/
def sampleConnectedNode : NodeState :=
  { websocket := some { closed := false }
    subscription_id := some "sub-1"
    last_height := some 100
    last_hash := some "H1"
    is_connected := true
    last_message_time := 50
    momentums := [sampleMomentum] }

/-- Sample node reporting height 100, hash "H1", used by fork-check witnesses. -/
def nodeReportingH1 : NodeState :=
  { websocket := some { closed := false }
    subscription_id := some "sub-a"
    last_height := some 100
    last_hash := some "H1"
    is_connected := true
    last_message_time := 50
    momentums := [sampleMomentum] }

/-- Sample node reporting height 100, hash "H2". -/
def nodeReportingH2 : NodeState := { nodeReportingH1 with last_hash := some "H2" }

/-- Sample node reporting height 99, hash "H1". -/
def nodeReportingLow : NodeState := { nodeReportingH1 with last_height := some 99 }

/-- Sample disconnected node that still has agreeing data. -/
def nodeDisconnected : NodeState := { nodeReportingH1 with is_connected := false }

/-- Helper: the number of distinct elements of a three-element list exceeds one
exactly when the three elements are not all equal. -/
theorem dedup_three_length_gt_one {α : Type} [DecidableEq α] (x y z : α) :
    1 < ([x, y, z].dedup.length) ↔ ¬(x = y ∧ y = z) := by
  by_cases hxy : x = y
  · by_cases hyz : y = z
    · subst hxy; subst hyz
      rw [List.dedup_cons_of_mem (by simp), List.dedup_cons_of_mem (by simp)]
      simp
    · subst hxy
      rw [List.dedup_cons_of_mem (by simp),
        List.dedup_cons_of_not_mem (by simpa using hyz)]
      simp [hyz]
  · by_cases hyz : y = z
    · subst hyz
      rw [List.dedup_cons_of_not_mem (by simp [hxy]),
        List.dedup_cons_of_mem (by simp)]
      simp [hxy]
    · by_cases hxz : x = z
      · subst hxz
        rw [List.dedup_cons_of_mem (by simp),
          List.dedup_cons_of_not_mem (by simpa using hyz)]
        simp [hxy]
      · rw [List.dedup_cons_of_not_mem (by simp [hxy, hxz]),
          List.dedup_cons_of_not_mem (by simpa using hyz)]
        simp [hxy]

/-- Helper: every momentum held after `handle_disconnection` is stale. -/
theorem stale_after_handle_disconnection (node : NodeState) :
    ∀ m ∈ (handle_disconnection node).1.momentums, m.is_stale = true := by
  intro m hm
  simp only [handle_disconnection, List.mem_map] at hm
  obtain ⟨a, -, rfl⟩ := hm
  rfl

/-- C6: after `handle_disconnection` runs on any node state, `is_connected` is
false, `subscription_id` is cleared, the websocket field is cleared and the
handle the node was holding (if any) ends up closed, every held momentum is
marked stale, and `momentums` holds exactly the entries it held before (the
stale-marked originals, in order — same length, nothing removed). -/
theorem handle_disconnection_spec (node : NodeState) :
    (handle_disconnection node).1.is_connected = false ∧
    (handle_disconnection node).1.subscription_id = none ∧
    (handle_disconnection node).1.websocket = none ∧
    (∀ w ∈ (handle_disconnection node).2, w.closed = true) ∧
    (handle_disconnection node).2.isSome = node.websocket.isSome ∧
    (handle_disconnection node).1.momentums =
      node.momentums.map (fun m => { m with is_stale := true }) ∧
    (handle_disconnection node).1.momentums.length = node.momentums.length ∧
    ∀ m ∈ (handle_disconnection node).1.momentums, m.is_stale = true := by
  refine ⟨rfl, rfl, rfl, ?_, ?_, rfl, by simp [handle_disconnection],
    stale_after_handle_disconnection node⟩
  · intro w hw
    cases hws : node.websocket with
    | none => simp [handle_disconnection, hws] at hw
    | some w0 =>
        simp only [handle_disconnection, hws, Option.mem_def, Option.some.injEq] at hw
        subst hw
        split
        · rename_i h; exact h
        · rfl
  · cases hws : node.websocket <;> simp [handle_disconnection, hws]

/-- Witness for `handle_disconnection_spec`: the sample connected node holds
the sample momentum stale-marked after disconnection handling. -/
theorem handle_disconnection_spec_witness :
    ({ sampleMomentum with is_stale := true } : Momentum) ∈
      (handle_disconnection sampleConnectedNode).1.momentums ∧
    ({ sampleMomentum with is_stale := true } : Momentum).is_stale = true :=
  ⟨by decide,
    (handle_disconnection_spec sampleConnectedNode).2.2.2.2.2.2.2 _ (by decide)⟩

/-- C7: the momentum buffer never exceeds five entries after an update, and an
update on a full buffer of five evicts exactly the oldest entry, preserving the
insertion order of the retained entries. -/
theorem update_momentums_bounded_fifo (momentums : List Momentum) (height : Int)
    (hash : String) (now : Int) :
    (update_momentums momentums height hash now).length ≤ 5 ∧
    (momentums.length = 5 →
      update_momentums momentums height hash now =
        momentums.drop 1 ++ [{ height := height, hash := hash, timestamp := now }]) := by
  constructor
  · simp only [update_momentums]
    split
    · rename_i h
      simp only [List.length_drop]
      omega
    · rename_i h
      omega
  · intro h5
    simp only [update_momentums]
    rw [if_pos (by simp [h5])]
    rw [List.drop_append_of_le_length (by simp [h5])]
    simp [h5]

/-- Witness for `update_momentums_bounded_fifo` on a concrete full buffer. -/
theorem update_momentums_bounded_fifo_witness :
    ([⟨1, "a", 0, false⟩, ⟨2, "b", 0, false⟩, ⟨3, "c", 0, false⟩, ⟨4, "d", 0, false⟩,
        ⟨5, "e", 0, false⟩] : List Momentum).length = 5 ∧
    update_momentums [⟨1, "a", 0, false⟩, ⟨2, "b", 0, false⟩, ⟨3, "c", 0, false⟩,
        ⟨4, "d", 0, false⟩, ⟨5, "e", 0, false⟩] 6 "f" 9 =
      ([⟨1, "a", 0, false⟩, ⟨2, "b", 0, false⟩, ⟨3, "c", 0, false⟩, ⟨4, "d", 0, false⟩,
        ⟨5, "e", 0, false⟩] : List Momentum).drop 1 ++
        [{ height := 6, hash := "f", timestamp := 9 }] :=
  ⟨by decide,
    (update_momentums_bounded_fifo [⟨1, "a", 0, false⟩, ⟨2, "b", 0, false⟩,
      ⟨3, "c", 0, false⟩, ⟨4, "d", 0, false⟩, ⟨5, "e", 0, false⟩] 6 "f" 9).2 (by decide)⟩

/-- C8: when a node believes it is connected and `now - last_message_time`
exceeds `MESSAGE_TIMEOUT`, the health check performs full disconnection
handling — the node comes out disconnected with all held momentums stale —
with no transport-level close event in the model; on a node that is already
disconnected the health check changes nothing. -/
theorem check_connection_health_spec (now : Int) (node : NodeState) :
    (node.is_connected = true → now - node.last_message_time > MESSAGE_TIMEOUT →
      check_connection_health now node = (handle_disconnection node).1 ∧
      (check_connection_health now node).is_connected = false ∧
      ∀ m ∈ (check_connection_health now node).momentums, m.is_stale = true) ∧
    (node.is_connected = false → check_connection_health now node = node) := by
  constructor
  · intro hc ht
    have heq : check_connection_health now node = (handle_disconnection node).1 := by
      simp only [check_connection_health, hc, Bool.not_true, Bool.false_eq_true,
        if_false, if_pos ht]
    refine ⟨heq, by rw [heq]; rfl, ?_⟩
    rw [heq]
    exact stale_after_handle_disconnection node
  · intro hc
    simp [check_connection_health, hc]

/-- Witness for `check_connection_health_spec`: the sample connected node last
heard a message at time 50, so at time 100 the health check disconnects it and
its held momentum is stale; a node reset to disconnected is left unchanged. -/
theorem check_connection_health_spec_witness :
    (sampleConnectedNode.is_connected = true ∧
      (100 : Int) - sampleConnectedNode.last_message_time > MESSAGE_TIMEOUT ∧
      check_connection_health 100 sampleConnectedNode =
        (handle_disconnection sampleConnectedNode).1 ∧
      (check_connection_health 100 sampleConnectedNode).is_connected = false) ∧
    ({ sampleConnectedNode with is_connected := false } : NodeState).is_connected = false ∧
    check_connection_health 100 { sampleConnectedNode with is_connected := false } =
      { sampleConnectedNode with is_connected := false } := by
  have h1 := (check_connection_health_spec 100 sampleConnectedNode).1 (by decide) (by decide)
  have h2 := (check_connection_health_spec 100
    { sampleConnectedNode with is_connected := false }).2 (by decide)
  exact ⟨⟨by decide, by decide, h1.1, h1.2.1⟩, by decide, h2⟩

/-- C4 counterexample: a message whose payload carries `params.result` but an
empty list does not match the expected notification shape, yet processing it
while connected is fatal to the connection: the indexing error escapes to the
generic handler and `is_connected` flips from true to false. -/
theorem malformed_message_fatal_counterexample :
    sampleConnectedNode.is_connected = true ∧
    (monitor_iteration sampleConnectedNode (Msg.push []) 60).is_connected = false := by
  decide

/-- C4 (amended): an inbound message that fails the key test (`'params' in
data and 'result' in data['params']`) is logged and discarded: apart from the
already-applied `last_message_time` stamp the node is unchanged and the
connection survives. A message that passes the key test but whose content is
not of the expected form — unparseable JSON, an empty `params.result` list, or
a head item without the `height` key — instead raises, and the outer handler
marks the node disconnected. -/
theorem malformed_message_handling (node : NodeState) (now : Int) :
    receive_step node Msg.noPush now =
      ({ node with last_message_time := now }, StepOutcome.discarded) ∧
    (monitor_iteration node Msg.noPush now).is_connected = node.is_connected ∧
    (monitor_iteration node Msg.noPush now).momentums = node.momentums ∧
    (monitor_iteration node Msg.noPush now).last_height = node.last_height ∧
    (monitor_iteration node Msg.noPush now).last_hash = node.last_hash ∧
    (monitor_iteration node Msg.invalidJson now).is_connected = false ∧
    (monitor_iteration node (Msg.push []) now).is_connected = false ∧
    (monitor_iteration node (Msg.push [PushItem.missingHeight]) now).is_connected = false :=
  ⟨rfl, rfl, rfl, rfl, rfl, rfl, rfl, rfl⟩

/-- C5 counterexample: a transport-level close in the Connected state only
clears `is_connected`: the sample node's subscription id stays set and its held
momentum stays non-stale before the backoff and retry, contrary to the claimed
stale-marking and subscription release. -/
theorem transport_error_counterexample :
    sampleConnectedNode.is_connected = true ∧
    (on_transport_error sampleConnectedNode).subscription_id = some "sub-1" ∧
    (on_transport_error sampleConnectedNode).momentums = [sampleMomentum] ∧
    sampleMomentum.is_stale = false := by
  decide

/-- C5 (amended): a transport-level close or unexpected error in the Connected
ingestion loop marks the node disconnected before the fixed backoff, but
touches nothing else: `subscription_id`, the websocket field, and the held
momentums (staleness flags included) are unchanged. Releasing the subscription
id and stale-marking every held momentum happen only where
`handle_disconnection` runs, such as the subscription-ack failure path of
`connect_node`. -/
theorem transport_error_amended (node : NodeState) :
    (on_transport_error node).is_connected = false ∧
    (on_transport_error node).subscription_id = node.subscription_id ∧
    (on_transport_error node).websocket = node.websocket ∧
    (on_transport_error node).momentums = node.momentums ∧
    (subscription_failure_step node).1.is_connected = false ∧
    (subscription_failure_step node).1.subscription_id = none ∧
    ∀ m ∈ (subscription_failure_step node).1.momentums, m.is_stale = true :=
  ⟨rfl, rfl, rfl, rfl, rfl, rfl, stale_after_handle_disconnection _⟩

/-- Witness for `transport_error_amended` at the sample connected node. -/
theorem transport_error_amended_witness :
    ({ sampleMomentum with is_stale := true } : Momentum) ∈
      (subscription_failure_step sampleConnectedNode).1.momentums ∧
    ({ sampleMomentum with is_stale := true } : Momentum).is_stale = true :=
  ⟨by decide, (transport_error_amended sampleConnectedNode).2.2.2.2.2.2 _ (by decide)⟩

/-- C9: `check_for_fork` hands back the registry exactly as it found it — it
mutates no node field — and running it again on the registry it returns yields
the same decision. -/
theorem check_for_fork_pure (r : Registry) :
    (check_for_fork r).1 = r ∧
    (check_for_fork (check_for_fork r).1).2 = (check_for_fork r).2 := by
  have h1 : (check_for_fork r).1 = r := by
    simp only [check_for_fork]
    split
    · rfl
    · split
      · rfl
      · split
        · rfl
        · split
          · rfl
          · rfl
  exact ⟨h1, by rw [h1]⟩

/-- Helper: on a registry whose three nodes are all connected and report data
at one common height, `check_for_fork` reaches the hash comparison and decides
by whether the two non-reference hashes equal the hc1 reference hash. -/
theorem check_for_fork_equal_heights (r : Registry) (ht : Int) (a b c : String)
    (hc : r.hc1.is_connected = true) (hz : r.zenonhub.is_connected = true)
    (ha : r.atsocy.is_connected = true)
    (hh1 : r.hc1.last_height = some ht) (hh2 : r.zenonhub.last_height = some ht)
    (hh3 : r.atsocy.last_height = some ht)
    (hs1 : r.hc1.last_hash = some a) (hs2 : r.zenonhub.last_hash = some b)
    (hs3 : r.atsocy.last_hash = some c) :
    (check_for_fork r).2 =
      if b = a ∧ c = a then ForkDecision.consensus (some ht) (some a)
      else ForkDecision.fork
        [(NodeName.hc1, some ht, some a), (NodeName.zenonhub, some ht, some b),
         (NodeName.atsocy, some ht, some c)] := by
  have hdedup : ([some ht, some ht, some ht] : List (Option Int)).dedup = [some ht] := by
    rw [List.dedup_cons_of_mem (by simp), List.dedup_cons_of_mem (by simp)]
    simp
  by_cases hall : b = a ∧ c = a
  · obtain ⟨hb, hcc⟩ := hall
    subst hb; subst hcc
    simp [check_for_fork, Registry.nodesList, hc, hz, ha, hh1, hh2, hh3, hs1, hs2, hs3,
      hdedup]
  · rw [if_neg hall]
    simp [check_for_fork, Registry.nodesList, hc, hz, ha, hh1, hh2, hh3, hs1, hs2, hs3,
      hdedup, hall]

/-- C1: on any registry in which every node is connected, every node has data,
and all three reported heights are equal, `check_for_fork` decides consensus at
that height and hash when all three hashes agree, and decides fork — reporting
each node's height and hash — when any two hashes differ. -/
theorem check_for_fork_consensus_or_fork (r : Registry) (ht : Int) (a b c : String)
    (hc : r.hc1.is_connected = true) (hz : r.zenonhub.is_connected = true)
    (ha : r.atsocy.is_connected = true)
    (hh1 : r.hc1.last_height = some ht) (hh2 : r.zenonhub.last_height = some ht)
    (hh3 : r.atsocy.last_height = some ht)
    (hs1 : r.hc1.last_hash = some a) (hs2 : r.zenonhub.last_hash = some b)
    (hs3 : r.atsocy.last_hash = some c) :
    (a = b ∧ a = c →
      (check_for_fork r).2 = ForkDecision.consensus (some ht) (some a)) ∧
    (¬(a = b ∧ a = c) →
      (check_for_fork r).2 = ForkDecision.fork
        [(NodeName.hc1, some ht, some a), (NodeName.zenonhub, some ht, some b),
         (NodeName.atsocy, some ht, some c)]) := by
  have h := check_for_fork_equal_heights r ht a b c hc hz ha hh1 hh2 hh3 hs1 hs2 hs3
  constructor
  · rintro ⟨hb, hcc⟩
    rw [h, if_pos ⟨hb.symm, hcc.symm⟩]
  · intro hne
    rw [h, if_neg fun hx => hne ⟨hx.1.symm, hx.2.symm⟩]

/-- Witness for `check_for_fork_consensus_or_fork`: hc1 and atsocy report hash
"H1" at height 100 while zenonhub reports "H2", and the check decides fork with
the full per-node report. -/
theorem check_for_fork_consensus_or_fork_witness :
    ¬(("H1" : String) = "H2" ∧ ("H1" : String) = "H1") ∧
    (check_for_fork ⟨nodeReportingH1, nodeReportingH2, nodeReportingH1⟩).2 =
      ForkDecision.fork
        [(NodeName.hc1, some 100, some "H1"), (NodeName.zenonhub, some 100, some "H2"),
         (NodeName.atsocy, some 100, some "H1")] :=
  ⟨by decide,
    (check_for_fork_consensus_or_fork ⟨nodeReportingH1, nodeReportingH2, nodeReportingH1⟩
      100 "H1" "H2" "H1" (by decide) (by decide) (by decide) (by decide) (by decide)
      (by decide) (by decide) (by decide) (by decide)).2 (by decide)⟩

/-- C2: whenever at least one configured node is disconnected, `check_for_fork`
decides the disconnected form of incomplete, whatever every other field of
every node holds. -/
theorem check_for_fork_disconnected (r : Registry)
    (h : r.hc1.is_connected = false ∨ r.zenonhub.is_connected = false ∨
      r.atsocy.is_connected = false) :
    (check_for_fork r).2 = ForkDecision.incompleteDisconnected := by
  have hcond : (!(r.nodesList.all fun p => p.2.is_connected)) = true := by
    rcases h with h | h | h <;> simp [Registry.nodesList, h]
  simp only [check_for_fork]
  rw [if_pos hcond]

/-- Witness for `check_for_fork_disconnected`: atsocy is disconnected while
hc1 and zenonhub agree at height 100, and the check still reports the
disconnection rather than any partial consensus. -/
theorem check_for_fork_disconnected_witness :
    ((⟨nodeReportingH1, nodeReportingH1, nodeDisconnected⟩ : Registry).hc1.is_connected
        = false ∨
      (⟨nodeReportingH1, nodeReportingH1, nodeDisconnected⟩ : Registry).zenonhub.is_connected
        = false ∨
      (⟨nodeReportingH1, nodeReportingH1, nodeDisconnected⟩ : Registry).atsocy.is_connected
        = false) ∧
    (check_for_fork ⟨nodeReportingH1, nodeReportingH1, nodeDisconnected⟩).2 =
      ForkDecision.incompleteDisconnected :=
  ⟨by decide,
    check_for_fork_disconnected ⟨nodeReportingH1, nodeReportingH1, nodeDisconnected⟩
      (by decide)⟩

/-- C3: on any registry in which every node is connected and has data but the
three reported heights are not all equal, `check_for_fork` decides the
height-mismatch form of incomplete, whatever the hashes are. -/
theorem check_for_fork_height_mismatch (r : Registry) (x y z : Int) (a b c : String)
    (hc : r.hc1.is_connected = true) (hz : r.zenonhub.is_connected = true)
    (ha : r.atsocy.is_connected = true)
    (hh1 : r.hc1.last_height = some x) (hh2 : r.zenonhub.last_height = some y)
    (hh3 : r.atsocy.last_height = some z)
    (hs1 : r.hc1.last_hash = some a) (hs2 : r.zenonhub.last_hash = some b)
    (hs3 : r.atsocy.last_hash = some c)
    (hne : ¬(x = y ∧ y = z)) :
    (check_for_fork r).2 = ForkDecision.incompleteHeightMismatch := by
  have hgt : 1 < ([some x, some y, some z] : List (Option Int)).dedup.length :=
    (dedup_three_length_gt_one (some x) (some y) (some z)).2 (by simpa using hne)
  simp [check_for_fork, Registry.nodesList, hc, hz, ha, hh1, hh2, hh3, hs1, hs2, hs3, hgt]

/-- Witness for `check_for_fork_height_mismatch`: hc1 and atsocy report height
100 while zenonhub reports 99, with identical hashes everywhere, and the check
reports the height mismatch. -/
theorem check_for_fork_height_mismatch_witness :
    ¬((100 : Int) = 99 ∧ (99 : Int) = 100) ∧
    (check_for_fork ⟨nodeReportingH1, nodeReportingLow, nodeReportingH1⟩).2 =
      ForkDecision.incompleteHeightMismatch :=
  ⟨by decide,
    check_for_fork_height_mismatch ⟨nodeReportingH1, nodeReportingLow, nodeReportingH1⟩
      100 99 100 "H1" "H1" "H1" (by decide) (by decide) (by decide) (by decide)
      (by decide) (by decide) (by decide) (by decide) (by decide) (by decide)⟩

/-- C10: on any registry in which every node is connected and has data at one
common height, the consensus-versus-fork classification is independent of the
hardcoded hc1 reference — a consensus decision exists exactly when the three
hashes are pairwise equal — and any consensus decision reports a hash equal to
every node's `last_hash`, not only hc1's. -/
theorem check_for_fork_reference_independent (r : Registry) (ht : Int) (a b c : String)
    (hc : r.hc1.is_connected = true) (hz : r.zenonhub.is_connected = true)
    (ha : r.atsocy.is_connected = true)
    (hh1 : r.hc1.last_height = some ht) (hh2 : r.zenonhub.last_height = some ht)
    (hh3 : r.atsocy.last_height = some ht)
    (hs1 : r.hc1.last_hash = some a) (hs2 : r.zenonhub.last_hash = some b)
    (hs3 : r.atsocy.last_hash = some c) :
    ((∃ h s, (check_for_fork r).2 = ForkDecision.consensus h s) ↔ (a = b ∧ b = c)) ∧
    ∀ h s, (check_for_fork r).2 = ForkDecision.consensus h s →
      s = r.hc1.last_hash ∧ s = r.zenonhub.last_hash ∧ s = r.atsocy.last_hash := by
  have h := check_for_fork_equal_heights r ht a b c hc hz ha hh1 hh2 hh3 hs1 hs2 hs3
  by_cases hall : b = a ∧ c = a
  · obtain ⟨hb, hcc⟩ := hall
    rw [h, if_pos ⟨hb, hcc⟩]
    subst hb; subst hcc
    constructor
    · simp
    · rintro hh ss heq
      cases heq
      exact ⟨hs1.symm, hs2.symm, hs3.symm⟩
  · rw [h, if_neg hall]
    refine ⟨⟨?_, ?_⟩, ?_⟩
    · rintro ⟨hh, ss, heq⟩
      cases heq
    · rintro ⟨hab, hbc⟩
      exact absurd ⟨hab.symm, (hab.trans hbc).symm⟩ hall
    · rintro hh ss heq
      cases heq

/-- Witness for `check_for_fork_reference_independent`: with all three nodes
reporting height 100 and hash "H1", a consensus decision exists and its hash
equals every node's `last_hash`. -/
theorem check_for_fork_reference_independent_witness :
    ((check_for_fork ⟨nodeReportingH1, nodeReportingH1, nodeReportingH1⟩).2 =
      ForkDecision.consensus (some 100) (some "H1")) ∧
    (some "H1" =
        (⟨nodeReportingH1, nodeReportingH1, nodeReportingH1⟩ : Registry).hc1.last_hash ∧
      some "H1" =
        (⟨nodeReportingH1, nodeReportingH1, nodeReportingH1⟩ : Registry).zenonhub.last_hash ∧
      some "H1" =
        (⟨nodeReportingH1, nodeReportingH1, nodeReportingH1⟩ : Registry).atsocy.last_hash) :=
  ⟨by decide,
    (check_for_fork_reference_independent
      ⟨nodeReportingH1, nodeReportingH1, nodeReportingH1⟩ 100 "H1" "H1" "H1"
      (by decide) (by decide) (by decide) (by decide) (by decide) (by decide)
      (by decide) (by decide) (by decide)).2 (some 100) (some "H1") (by decide)⟩
